import Mathlib

/-!
Verification development for the data-ingestion script `src/data_ingestion.py`
of the DVC-End2End-S3 repository.

The script is shallowly embedded: a pandas `DataFrame` becomes a structure of
a column list and a row list; fallible operations return `Except`; filesystem
and network effects are passed in as explicit outcome values; the process-wide
logger becomes an explicit list of log entries returned alongside results.
Library semantics (pandas `drop`/`rename`, sklearn `train_test_split`) are
embedded per their documented behaviour at the call sites used by the script.
-/

/-- A pandas data frame, reduced to what the script observes: an ordered list
of column names and an ordered list of rows, each row a list of cell strings
aligned positionally with the columns. -/
structure DataFrame where
  columns : List String
  rows : List (List String)
deriving DecidableEq

/-- Log levels used by the script (it only emits DEBUG and ERROR records). -/
inductive LogLevel
  | debug
  | error
deriving DecidableEq

/-- One log record: `logger.<level>(message)`.  The handlers mirror each
record to the console and the log file identically, so one entry stands for
one emitted record. -/
structure LogEntry where
  level : LogLevel
  message : String
deriving DecidableEq

/-- Python exception classes the script distinguishes in its handlers. -/
inductive PyError
  | fileNotFound (path : String)
  | yamlError (msg : String)
  | parserError (msg : String)
  | keyError (msg : String)
  | other (msg : String)
deriving DecidableEq

/-- `str(e)` for the exceptions of the model. -/
def errMsg : PyError → String
  | PyError.fileNotFound p => "No such file or directory: " ++ p
  | PyError.yamlError m => m
  | PyError.parserError m => m
  | PyError.keyError m => m
  | PyError.other m => m

/-- The three placeholder labels dropped by `preprocess_data`:
`df.drop(columns=[Unnamed: 2, Unnamed: 3, Unnamed: 4], inplace=True)`. -/
def dropLabels : List String := ["Unnamed: 2", "Unnamed: 3", "Unnamed: 4"]

/-- The rename mapping of `preprocess_data`:
`df.rename(columns={v1: target, v2: text}, inplace=True)`. -/
def renameMap : List (String × String) := [("v1", "target"), ("v2", "text")]

/-- pandas `DataFrame.drop(columns=labels)` with the default `errors="raise"`:
if any requested label is absent it raises `KeyError` before mutating anything;
otherwise it removes the named columns and the corresponding cell of every
row. -/
def DataFrame.drop (df : DataFrame) (labels : List String) : Except String DataFrame :=
  if labels.all (fun l => df.columns.contains l) then
    Except.ok
      { columns := df.columns.filter (fun c => !(labels.contains c)),
        rows := df.rows.map (fun r =>
          (df.columns.zip r).filterMap
            (fun p => if labels.contains p.1 then none else some p.2)) }
  else Except.error "columns not found in axis"

/-- Apply a pandas column-rename mapping to one label: a label present in the
mapping is replaced, any other label is kept (pandas `rename` with the default
`errors="ignore"` silently skips mapping keys that match no column). -/
def applyRename (m : List (String × String)) (c : String) : String :=
  match m.lookup c with
  | some c2 => c2
  | none => c

/-- pandas `DataFrame.rename(columns=m)`: relabels columns through the
mapping; never fails; rows are untouched. -/
def DataFrame.rename (df : DataFrame) (m : List (String × String)) : DataFrame :=
  { df with columns := df.columns.map (applyRename m) }

/-- `preprocess_data(df)`: drop the three placeholder columns (a `KeyError`
here is logged and re-raised), then rename `v1 -> target`, `v2 -> text`. -/
def preprocess_data (df : DataFrame) : Except String DataFrame :=
  match df.drop dropLabels with
  | Except.error e => Except.error e
  | Except.ok df2 => Except.ok (df2.rename renameMap)

/-- Projecting a row of the five-column input schema keeps exactly the `v1`
and `v2` cells, i.e. the first two cells. -/
theorem proj_take_two (r : List String) :
    ((["v1", "v2", "Unnamed: 2", "Unnamed: 3", "Unnamed: 4"]).zip r).filterMap
      (fun p => if dropLabels.contains p.1 then none else some p.2) = r.take 2 := by
  match r with
  | [] => rfl
  | [a] => rfl
  | [a, b] => rfl
  | [a, b, c] => rfl
  | [a, b, c, d] => rfl
  | a :: b :: c :: d :: e :: rest => rfl

/-- Claim C1: on an input frame whose columns are exactly
`v1, v2, Unnamed: 2, Unnamed: 3, Unnamed: 4`, `preprocess_data` succeeds and
returns the frame with columns exactly `target, text`, the same number of rows
and the rows in the same order (row `i` of the output is the `v1`/`v2`
projection of row `i` of the input). -/
theorem preprocess_five_columns (df : DataFrame)
    (h : df.columns = ["v1", "v2", "Unnamed: 2", "Unnamed: 3", "Unnamed: 4"]) :
    preprocess_data df =
      Except.ok ⟨["target", "text"], df.rows.map (fun r => r.take 2)⟩ := by
  obtain ⟨cols, rows⟩ := df
  dsimp only at h
  subst h
  have hmap : rows.map
      (fun r => ((["v1", "v2", "Unnamed: 2", "Unnamed: 3", "Unnamed: 4"]).zip r).filterMap
        (fun p => if dropLabels.contains p.1 then none else some p.2)) =
      rows.map (fun r => r.take 2) :=
    List.map_congr_left (fun r _ => proj_take_two r)
  rw [← hmap]
  rfl

/-- Concrete instance of the five-column preprocessing theorem. -/
theorem preprocess_five_columns_w :
    preprocess_data
        ⟨["v1", "v2", "Unnamed: 2", "Unnamed: 3", "Unnamed: 4"],
         [["ham", "hello", "", "", ""], ["spam", "win big", "", "", ""]]⟩ =
      Except.ok ⟨["target", "text"],
        ([["ham", "hello", "", "", ""], ["spam", "win big", "", "", ""]] :
          List (List String)).map (fun r => r.take 2)⟩ :=
  preprocess_five_columns _ rfl

/-- Claim C4, counterexample: a frame that has the three placeholder columns
but lacks `v1` makes `preprocess_data` succeed (pandas `rename` silently
ignores absent labels), contradicting the claim that a missing `v1`/`v2`
raises a lookup error. -/
theorem preprocess_missing_v1_no_error :
    preprocess_data ⟨["Unnamed: 2", "Unnamed: 3", "Unnamed: 4", "v2"], [["x", "y", "z", "w"]]⟩ =
      Except.ok ⟨["text"], [["w"]]⟩ := rfl

/-- Claim C4, amended: only the three placeholder columns are checked; a frame
missing at least one of them makes `preprocess_data` fail with the KeyError of
`drop` and no frame (hence no mutation) is produced. -/
theorem preprocess_missing_placeholder_raises (df : DataFrame)
    (h : (dropLabels.all fun l => df.columns.contains l) = false) :
    preprocess_data df = Except.error "columns not found in axis" := by
  unfold preprocess_data DataFrame.drop
  rw [if_neg (by intro hc; rw [h] at hc; exact Bool.false_ne_true hc)]

/-- Concrete instance: a frame missing `Unnamed: 3` is rejected by
`preprocess_data`. -/
theorem preprocess_missing_placeholder_raises_w :
    preprocess_data ⟨["v1", "v2", "Unnamed: 2", "Unnamed: 4"], [["a", "b", "c", "d"]]⟩ =
      Except.error "columns not found in axis" :=
  preprocess_missing_placeholder_raises _ (by decide)

/-- Claim C10: a frame holding the three placeholder columns but missing `v1`
or `v2` does not make `preprocess_data` raise; it returns the frame whose
columns are the surviving ones passed through the rename mapping, so present
`v1`/`v2` are renamed and absent ones are simply not produced. -/
theorem preprocess_rename_ignores_missing (df : DataFrame)
    (hdrop : (dropLabels.all fun l => df.columns.contains l) = true)
    (_hv : df.columns.contains "v1" = false ∨ df.columns.contains "v2" = false) :
    ∃ r, preprocess_data df = Except.ok r ∧
      r.columns =
        (df.columns.filter (fun c => !(dropLabels.contains c))).map (applyRename renameMap) := by
  unfold preprocess_data DataFrame.drop
  rw [if_pos hdrop]
  exact ⟨_, rfl, rfl⟩

/-- Concrete instance: placeholders present, `v1` absent, `preprocess_data`
succeeds and renames only `v2`. -/
theorem preprocess_rename_ignores_missing_w :
    ∃ r, preprocess_data ⟨["Unnamed: 2", "Unnamed: 3", "Unnamed: 4", "v2"], []⟩ =
        Except.ok r ∧
      r.columns =
        ((["Unnamed: 2", "Unnamed: 3", "Unnamed: 4", "v2"] : List String).filter
          (fun c => !(dropLabels.contains c))).map (applyRename renameMap) :=
  preprocess_rename_ignores_missing _ (by decide) (Or.inl (by decide))

/-- sklearn `_validate_shuffle_split` for a float `test_size` with
`train_size=None`: the test partition gets `ceil(test_size * n_samples)` rows
and the train partition the rest.  The fraction is modelled as an exact
rational. -/
def nTestOfFrac (q : ℚ) (n : Nat) : Nat := ⌈q * (n : ℚ)⌉₊

/-- The error paths of sklearn `_validate_shuffle_split` for a float
`test_size` with `train_size=None`: a `ValueError` when the fraction lies
outside `(0, 1)`, and a `ValueError` when the resulting train set would be
empty (which also covers an empty dataset); otherwise the validated test-set
size is returned and the split proceeds. -/
def validateShuffleSplit (q : ℚ) (n : Nat) : Except String Nat :=
  if 0 < q ∧ q < 1 then
    if n - nTestOfFrac q n = 0 then
      Except.error "the resulting train set will be empty"
    else Except.ok (nTestOfFrac q n)
  else Except.error "test_size should be a float in the (0, 1) range"

/-- Row selection by positional indices (`df.iloc[positions]`); out-of-range
positions select nothing. -/
def selectRows (df : DataFrame) (idx : List Nat) : DataFrame :=
  { columns := df.columns, rows := idx.filterMap (fun i => df.rows.get? i) }

/-- sklearn `train_test_split(df, test_size=..., random_state=..., shuffle=True)`:
draw a permutation `perm` of the row positions from the seeded generator, use
its first `nTest` entries as the test positions and the remaining entries as
the train positions, and return `(train, test)`.  This is the behaviour once
`_validate_shuffle_split` has accepted the sizes; its `ValueError` paths are
modelled by `validateShuffleSplit`. -/
def train_test_split (perm : List Nat) (nTest : Nat) (df : DataFrame) :
    DataFrame × DataFrame :=
  (selectRows df (perm.drop nTest), selectRows df (perm.take nTest))

/-- The split exactly as `main` invokes it, with `random_state=42`.
`permFn seed n` stands for the permutation of the positions `0..n-1` that
numpy draws from a generator seeded with `seed`; because the call passes the
literal int seed 42, sklearn builds a fresh generator from it and the ambient
global RNG state (`ambient`) is never consulted. -/
def splitRun (_ambient : Nat) (permFn : Nat → Nat → List Nat) (q : ℚ)
    (df : DataFrame) : DataFrame × DataFrame :=
  train_test_split (permFn 42 df.rows.length) (nTestOfFrac q df.rows.length) df

/-- `DataFrame.to_csv(path, index=False)`: a header line followed by one
comma-joined line per row, in row order. -/
def toCsvLines (df : DataFrame) : List String :=
  (String.intercalate "," df.columns) :: df.rows.map (String.intercalate ",")

/-- Selecting every position of a list in order returns the list itself. -/
theorem range_filterMap_get (l : List (List String)) :
    (List.range l.length).filterMap l.get? = l := by
  induction l with
  | nil => rfl
  | cons a tl ih =>
    rw [List.length_cons, List.range_succ_eq_map, List.filterMap_cons]
    have hcomp : ((a :: tl).get? ∘ Nat.succ) = tl.get? := rfl
    simp only [List.get?_cons_zero, List.filterMap_map, hcomp, ih]

/-- Selecting only in-range positions loses no row. -/
theorem length_filterMap_get (l : List (List String)) (idx : List Nat)
    (h : ∀ i ∈ idx, i < l.length) :
    (idx.filterMap l.get?).length = idx.length := by
  induction idx with
  | nil => rfl
  | cons i tl ih =>
    have hi : i < l.length := h i (List.mem_cons_self i tl)
    obtain ⟨a, ha⟩ : ∃ a, l.get? i = some a := by
      cases hg : l.get? i with
      | none =>
        rw [List.get?_eq_none] at hg
        omega
      | some a => exact ⟨a, rfl⟩
    simp only [List.filterMap_cons, ha, List.length_cons]
    rw [ih (fun j hj => h j (List.mem_cons_of_mem _ hj))]

/-- Claim C2: for every dataset and fraction, the seeded split of `main`
partitions the rows: train and test together are a permutation of the
original rows (so their union is the original row set), and the selected
test and train position lists are disjoint (empty intersection). -/
theorem split_partition (permFn : Nat → Nat → List Nat) (q : ℚ) (ambient : Nat)
    (df : DataFrame)
    (hperm : (permFn 42 df.rows.length).Perm (List.range df.rows.length)) :
    ((splitRun ambient permFn q df).1.rows ++
        (splitRun ambient permFn q df).2.rows).Perm df.rows ∧
      ∀ i ∈ (permFn 42 df.rows.length).take (nTestOfFrac q df.rows.length),
        i ∉ (permFn 42 df.rows.length).drop (nTestOfFrac q df.rows.length) := by
  constructor
  · show (((permFn 42 df.rows.length).drop (nTestOfFrac q df.rows.length)).filterMap
        (fun i => df.rows.get? i) ++
      ((permFn 42 df.rows.length).take (nTestOfFrac q df.rows.length)).filterMap
        (fun i => df.rows.get? i)).Perm df.rows
    rw [← List.filterMap_append]
    have h2 : ((permFn 42 df.rows.length).drop (nTestOfFrac q df.rows.length) ++
        (permFn 42 df.rows.length).take (nTestOfFrac q df.rows.length)).Perm
        (List.range df.rows.length) := by
      refine List.Perm.trans List.perm_append_comm ?_
      rw [List.take_append_drop]
      exact hperm
    have h3 := h2.filterMap (fun i => df.rows.get? i)
    have h4 : (List.range df.rows.length).filterMap (fun i => df.rows.get? i) = df.rows :=
      range_filterMap_get df.rows
    rw [h4] at h3
    exact h3
  · have hnd : (permFn 42 df.rows.length).Nodup :=
      (List.Perm.nodup_iff hperm).mpr (List.nodup_range _)
    intro i hi hmem
    exact List.disjoint_take_drop hnd (le_refl _) hi hmem

/-- A concrete stand-in for the seeded permutation generator: reverse the
positions (a permutation of `range n` for every `n`). -/
def revPerm : Nat → Nat → List Nat := fun _ n => (List.range n).reverse

/-- A concrete three-row preprocessed dataset. -/
def df3 : DataFrame := ⟨["target", "text"], [["a", "b"], ["c", "d"], ["e", "f"]]⟩

/-- Concrete instance of the partition theorem on a three-row dataset. -/
theorem split_partition_w :
    (((splitRun 0 revPerm (1/5) df3).1.rows ++
        (splitRun 0 revPerm (1/5) df3).2.rows).Perm df3.rows) ∧
      ∀ i ∈ (revPerm 42 df3.rows.length).take (nTestOfFrac (1/5) df3.rows.length),
        i ∉ (revPerm 42 df3.rows.length).drop (nTestOfFrac (1/5) df3.rows.length) :=
  split_partition revPerm (1/5) 0 df3 (by decide)

/-- Size computation of the split for any fraction at most one: the test
partition has `nTestOfFrac q N` rows and train and test together have `N`
rows. -/
theorem split_sizes_aux (permFn : Nat → Nat → List Nat) (q : ℚ) (ambient : Nat)
    (df : DataFrame) (h1 : q ≤ 1)
    (hperm : (permFn 42 df.rows.length).Perm (List.range df.rows.length)) :
    (splitRun ambient permFn q df).2.rows.length = nTestOfFrac q df.rows.length ∧
      (splitRun ambient permFn q df).1.rows.length +
        (splitRun ambient permFn q df).2.rows.length = df.rows.length := by
  have hlen : (permFn 42 df.rows.length).length = df.rows.length := by
    rw [hperm.length_eq, List.length_range]
  have hle : nTestOfFrac q df.rows.length ≤ df.rows.length := by
    have hq : q * (df.rows.length : ℚ) ≤ (df.rows.length : ℚ) := by
      calc q * (df.rows.length : ℚ) ≤ 1 * (df.rows.length : ℚ) :=
            mul_le_mul_of_nonneg_right h1 (Nat.cast_nonneg _)
        _ = (df.rows.length : ℚ) := one_mul _
    calc nTestOfFrac q df.rows.length ≤ ⌈((df.rows.length : Nat) : ℚ)⌉₊ := Nat.ceil_mono hq
      _ = df.rows.length := Nat.ceil_natCast _
  have hmem : ∀ i ∈ permFn 42 df.rows.length, i < df.rows.length := fun i hi =>
    List.mem_range.mp (hperm.mem_iff.mp hi)
  have hTest : (splitRun ambient permFn q df).2.rows.length =
      nTestOfFrac q df.rows.length := by
    show (((permFn 42 df.rows.length).take (nTestOfFrac q df.rows.length)).filterMap
      (fun i => df.rows.get? i)).length = _
    rw [length_filterMap_get df.rows _ (fun i hi => hmem i (List.mem_of_mem_take hi)),
      List.length_take, hlen]
    exact min_eq_left hle
  have hTrain : (splitRun ambient permFn q df).1.rows.length =
      df.rows.length - nTestOfFrac q df.rows.length := by
    show (((permFn 42 df.rows.length).drop (nTestOfFrac q df.rows.length)).filterMap
      (fun i => df.rows.get? i)).length = _
    rw [length_filterMap_get df.rows _ (fun i hi => hmem i (List.mem_of_mem_drop hi)),
      List.length_drop, hlen]
  refine ⟨hTest, ?_⟩
  rw [hTrain, hTest]
  omega

/-- Claim C3 (amended): for `test_size = 1/5` and every dataset on which
sklearn `_validate_shuffle_split` accepts the split (it raises `ValueError`
and produces nothing for a float fraction outside `(0, 1)` or when the
resulting train set would be empty, i.e. `N ≤ 1` here), the test partition of
the seeded split has exactly `nTestOfFrac (1/5) N = ceil(N/5)` rows — the
test share is rounded up, not to nearest — and train and test together have
exactly `N` rows. -/
theorem split_sizes (permFn : Nat → Nat → List Nat) (ambient : Nat) (df : DataFrame)
    (_hval : validateShuffleSplit (1/5) df.rows.length =
      Except.ok (nTestOfFrac (1/5) df.rows.length))
    (hperm : (permFn 42 df.rows.length).Perm (List.range df.rows.length)) :
    (splitRun ambient permFn (1/5) df).2.rows.length = nTestOfFrac (1/5) df.rows.length ∧
      (splitRun ambient permFn (1/5) df).1.rows.length +
        (splitRun ambient permFn (1/5) df).2.rows.length = df.rows.length :=
  split_sizes_aux permFn (1/5) ambient df (by norm_num) hperm

/-- A concrete ten-row preprocessed dataset. -/
def df10 : DataFrame := ⟨["target", "text"], List.replicate 10 ["msg", "txt"]⟩

/-- Evaluation of the test-share size at ten rows and fraction 1/5. -/
theorem nTestOfFrac_fifth_ten : nTestOfFrac (1/5) 10 = 2 := by
  unfold nTestOfFrac
  rw [Nat.ceil_eq_iff (by norm_num)]
  constructor
  · push_cast
    norm_num
  · push_cast
    norm_num

/-- Concrete instance of the size theorem: ten rows, fraction 1/5 (the
validation accepts: the train set keeps eight rows). -/
theorem split_sizes_w :
    (splitRun 0 revPerm (1/5) df10).2.rows.length = nTestOfFrac (1/5) df10.rows.length ∧
      (splitRun 0 revPerm (1/5) df10).1.rows.length +
        (splitRun 0 revPerm (1/5) df10).2.rows.length = df10.rows.length :=
  split_sizes revPerm 0 df10
    (by
      have hlen : df10.rows.length = 10 := rfl
      rw [hlen]
      unfold validateShuffleSplit
      rw [nTestOfFrac_fifth_ten, if_pos ⟨by norm_num, by norm_num⟩, if_neg (by norm_num)])
    (by decide)

/-- Rounding to the nearest integer, as the claim uses `round(0.2 * N)`. -/
def roundQ (q : ℚ) : ℤ := ⌊q + 1 / 2⌋

/-- A concrete eleven-row preprocessed dataset. -/
def df11 : DataFrame := ⟨["target", "text"], List.replicate 11 ["msg", "txt"]⟩

/-- Claim C3, counterexample: for `N = 11` and `test_size = 1/5` the test
partition has `ceil(11/5) = 3` rows (sklearn rounds the test share up), not
`round(11/5) = 2` as the claim states. -/
theorem split_test_size_not_round :
    ((splitRun 0 revPerm (1/5) df11).2.rows.length : ℤ) ≠
      roundQ ((1/5 : ℚ) * (df11.rows.length : ℚ)) := by
  have hlen : df11.rows.length = 11 := rfl
  have h1 : nTestOfFrac (1/5) 11 = 3 := by
    unfold nTestOfFrac
    rw [Nat.ceil_eq_iff (by norm_num)]
    constructor
    · push_cast
      norm_num
    · push_cast
      norm_num
  have h3 : (splitRun 0 revPerm (1/5) df11).2.rows.length = 3 := by
    show (((revPerm 42 df11.rows.length).take (nTestOfFrac (1/5) df11.rows.length)).filterMap
      (fun i => df11.rows.get? i)).length = 3
    rw [hlen, h1]
    decide
  have h2 : roundQ ((1/5 : ℚ) * (df11.rows.length : ℚ)) = 2 := by
    unfold roundQ
    rw [hlen, Int.floor_eq_iff]
    constructor
    · push_cast
      norm_num
    · push_cast
      norm_num
  rw [h3, h2]
  decide

/-- Claim C9: with the literal seed 42 the split is deterministic: two runs
under arbitrary (and arbitrarily different) ambient RNG states produce the
same train and test partitions and hence the same `train.csv` and `test.csv`
contents. -/
theorem split_deterministic (permFn : Nat → Nat → List Nat) (q : ℚ)
    (df : DataFrame) (a1 a2 : Nat) :
    splitRun a1 permFn q df = splitRun a2 permFn q df ∧
      toCsvLines (splitRun a1 permFn q df).1 = toCsvLines (splitRun a2 permFn q df).1 ∧
      toCsvLines (splitRun a1 permFn q df).2 = toCsvLines (splitRun a2 permFn q df).2 :=
  ⟨rfl, rfl, rfl⟩

/-- A parsed YAML document as `yaml.safe_load` returns it: a scalar number,
a scalar string, or a nested mapping. -/
inductive Yaml
  | num (q : ℚ)
  | str (s : String)
  | map (entries : List (String × Yaml))

/-- Python subscripting `value[key]` on a loaded YAML document: a `KeyError`
when the mapping lacks the key, a `TypeError`-like generic error when the
value is not a mapping. -/
def subscript (y : Yaml) (k : String) : Except PyError Yaml :=
  match y with
  | Yaml.map es =>
    match es.lookup k with
    | some v => Except.ok v
    | none => Except.error (PyError.keyError k)
  | _ => Except.error (PyError.other ("value is not subscriptable: " ++ k))

/-- Coerce a YAML scalar to the number sklearn expects for `test_size`. -/
def getNum (y : Yaml) : Except PyError ℚ :=
  match y with
  | Yaml.num q => Except.ok q
  | _ => Except.error (PyError.other "test_size is not a number")

/-- The state of the configuration file at its path: absent (`open` raises
`FileNotFoundError`) or present with the result of parsing its text. -/
inductive FileState
  | absent
  | present (parseResult : Except String Yaml)

/-- `load_params(params_path)`: open and `yaml.safe_load` the file, log a
debug line and return the mapping on success; on `FileNotFoundError` or
`yaml.YAMLError` log one error line and re-raise. -/
def load_params (params_path : String) (file : FileState) :
    Except PyError Yaml × List LogEntry :=
  match file with
  | FileState.absent =>
    (Except.error (PyError.fileNotFound params_path),
     [⟨LogLevel.error, "File not found: " ++ errMsg (PyError.fileNotFound params_path)⟩])
  | FileState.present (Except.error e) =>
    (Except.error (PyError.yamlError e), [⟨LogLevel.error, "YAML Error: " ++ e⟩])
  | FileState.present (Except.ok y) =>
    (Except.ok y, [⟨LogLevel.debug, "Parameters retrieved from " ++ params_path⟩])

/-- Claim C6: on a well-formed configuration file whose document carries a
`data_ingestion.test_size` entry, `load_params` returns the parsed mapping
unchanged, so the value found at `data_ingestion.test_size` is the literal
value written in the file. -/
theorem load_params_preserves_test_size (params_path : String) (y sub tsv : Yaml)
    (h1 : subscript y "data_ingestion" = Except.ok sub)
    (h2 : subscript sub "test_size" = Except.ok tsv) :
    ∃ p, (load_params params_path (FileState.present (Except.ok y))).1 = Except.ok p ∧
      subscript p "data_ingestion" = Except.ok sub ∧
      subscript sub "test_size" = Except.ok tsv :=
  ⟨y, rfl, h1, h2⟩

/-- Concrete instance: a document with `data_ingestion.test_size = 1/5`. -/
theorem load_params_preserves_test_size_w :
    ∃ p, (load_params "params.yaml" (FileState.present (Except.ok
        (Yaml.map [("data_ingestion", Yaml.map [("test_size", Yaml.num (1/5))])])))).1 =
      Except.ok p ∧
      subscript p "data_ingestion" = Except.ok (Yaml.map [("test_size", Yaml.num (1/5))]) ∧
      subscript (Yaml.map [("test_size", Yaml.num (1/5))]) "test_size" =
        Except.ok (Yaml.num (1/5)) :=
  load_params_preserves_test_size "params.yaml" _ _ _ rfl rfl

/-- Claim C7: on a non-existent path `load_params` re-raises the
file-not-found error and emits exactly one error-level log record, whose
message mentions the path. -/
theorem load_params_absent_raises (params_path : String) :
    (load_params params_path FileState.absent).1 =
        Except.error (PyError.fileNotFound params_path) ∧
      ((load_params params_path FileState.absent).2.filter
          (fun l => l.level == LogLevel.error)) =
        [⟨LogLevel.error, "File not found: No such file or directory: " ++ params_path⟩] :=
  ⟨rfl, rfl⟩

/-- Result of one filesystem operation (`os.makedirs`, `to_csv`). -/
inductive FsOutcome
  | ok
  | fail (msg : String)

/-- Outcomes of the three filesystem operations `save_data` performs, in
order: create `<data_path>/raw`, write `train.csv`, write `test.csv`. -/
structure SaveEnv where
  makedirs : FsOutcome
  writeTrain : FsOutcome
  writeTest : FsOutcome

/-- `save_data(train_data, test_data, data_path)`: create the `raw`
subdirectory and write both CSV files; any exception is caught, logged and
swallowed, so the function always returns normally.  The first component
models the files present afterwards (`train.csv`, `test.csv` contents), the
second the emitted log records; there is no error channel, mirroring that
the Python function re-raises nothing. -/
def save_data (train_data test_data : DataFrame) (data_path : String) (fs : SaveEnv) :
    (Option (List String) × Option (List String)) × List LogEntry :=
  match fs.makedirs with
  | FsOutcome.fail e =>
    ((none, none),
     [⟨LogLevel.error, "Unexpected error occured while saving the data: " ++ e⟩])
  | FsOutcome.ok =>
    match fs.writeTrain with
    | FsOutcome.fail e =>
      ((none, none),
       [⟨LogLevel.error, "Unexpected error occured while saving the data: " ++ e⟩])
    | FsOutcome.ok =>
      match fs.writeTest with
      | FsOutcome.fail e =>
        ((some (toCsvLines train_data), none),
         [⟨LogLevel.error, "Unexpected error occured while saving the data: " ++ e⟩])
      | FsOutcome.ok =>
        ((some (toCsvLines train_data), some (toCsvLines test_data)),
         [⟨LogLevel.debug, "Train and test data saved to " ++ data_path ++ "/raw"⟩])

/-- Claim C5: `save_data` never raises: it is a total function into written
files plus logs, and for every combination of filesystem outcomes (including
an unwritable output directory) it either logs the single swallowed error or
the success debug line, returning normally either way. -/
theorem save_data_never_raises (train_data test_data : DataFrame) (data_path : String)
    (fs : SaveEnv) :
    (∃ e, (save_data train_data test_data data_path fs).2 =
        [⟨LogLevel.error, "Unexpected error occured while saving the data: " ++ e⟩]) ∨
      (save_data train_data test_data data_path fs).2 =
        [⟨LogLevel.debug, "Train and test data saved to " ++ data_path ++ "/raw"⟩] := by
  obtain ⟨m, t, s⟩ := fs
  cases m with
  | fail e => exact Or.inl ⟨e, rfl⟩
  | ok =>
    cases t with
    | fail e => exact Or.inl ⟨e, rfl⟩
    | ok =>
      cases s with
      | fail e => exact Or.inl ⟨e, rfl⟩
      | ok => exact Or.inr rfl

/-- Result of `pd.read_csv(data_url)` as the environment supplies it. -/
inductive CsvOutcome
  | frame (df : DataFrame)
  | parseFail (msg : String)
  | otherFail (msg : String)

/-- `load_data(data_url)`: return the parsed frame with a debug log, or log
and re-raise the parser or generic error. -/
def load_data (data_url : String) (o : CsvOutcome) :
    Except PyError DataFrame × List LogEntry :=
  match o with
  | CsvOutcome.frame df =>
    (Except.ok df, [⟨LogLevel.debug, "Data loaded from " ++ data_url⟩])
  | CsvOutcome.parseFail e =>
    (Except.error (PyError.parserError e),
     [⟨LogLevel.error, "Unable to parse csv file: " ++ e⟩])
  | CsvOutcome.otherFail e =>
    (Except.error (PyError.other e),
     [⟨LogLevel.error, "Unexpected error during data loading: " ++ e⟩])

/-- The hard-coded dataset URL of `main`. -/
def dataUrl : String :=
  "https://raw.githubusercontent.com/vikashishere/Datasets/main/spam.csv"

/-- Everything the outside world decides for one run of the script. -/
structure Env where
  paramsFile : FileState
  csvOutcome : CsvOutcome
  permFn : Nat → Nat → List Nat
  fsOut : SaveEnv

/-- The body of `main`: the straight-line pipeline inside its `try` block.
Returns the logs emitted so far and either success or the first propagated
exception. -/
def pipeline (env : Env) : List LogEntry × Except PyError Unit :=
  match load_params "params.yaml" env.paramsFile with
  | (Except.error e, logs) => (logs, Except.error e)
  | (Except.ok params, logs1) =>
    match subscript params "data_ingestion" with
    | Except.error e => (logs1, Except.error e)
    | Except.ok sub =>
      match subscript sub "test_size" with
      | Except.error e => (logs1, Except.error e)
      | Except.ok tsv =>
        match getNum tsv with
        | Except.error e => (logs1, Except.error e)
        | Except.ok q =>
          match load_data dataUrl env.csvOutcome with
          | (Except.error e, logs2) => (logs1 ++ logs2, Except.error e)
          | (Except.ok df, logs2) =>
            match preprocess_data df with
            | Except.error e =>
              (logs1 ++ logs2 ++
                 [⟨LogLevel.error, "Missing column in the dataframe: " ++ e⟩],
               Except.error (PyError.keyError e))
            | Except.ok final_df =>
              let pr := splitRun 0 env.permFn q final_df
              (logs1 ++ logs2 ++ [⟨LogLevel.debug, "Data pre-processing completed"⟩] ++
                 (save_data pr.1 pr.2 "./data" env.fsOut).2,
               Except.ok ())

/-- What a finished run leaves behind: the log records and the lines printed
to stdout.  There is no error channel: `main` terminates normally. -/
structure MainResult where
  logs : List LogEntry
  printed : List String

/-- `main()`: run the pipeline inside `try`; any propagated exception is
caught, logged at error level, printed, and not re-raised. -/
def mainFn (env : Env) : MainResult :=
  match pipeline env with
  | (logs, Except.ok _) => ⟨logs, []⟩
  | (logs, Except.error e) =>
    ⟨logs ++
       [⟨LogLevel.error, "Failed to complete the data ingestion process: " ++ errMsg e⟩],
     ["Error: " ++ errMsg e]⟩

/-- Claim C8: whenever any pipeline stage propagates an exception, `main`
catches it, appends one error-level log record for it, prints the
human-readable message, and returns normally (its type has no error
channel). -/
theorem main_catches_all (env : Env) (e : PyError)
    (h : (pipeline env).2 = Except.error e) :
    (mainFn env).printed = ["Error: " ++ errMsg e] ∧
      LogEntry.mk LogLevel.error
          ("Failed to complete the data ingestion process: " ++ errMsg e) ∈
        (mainFn env).logs := by
  have hp : pipeline env = ((pipeline env).1, Except.error e) := by
    rw [← h]
  have hm : mainFn env =
      ⟨(pipeline env).1 ++
         [⟨LogLevel.error, "Failed to complete the data ingestion process: " ++ errMsg e⟩],
       ["Error: " ++ errMsg e]⟩ := by
    unfold mainFn
    rw [hp]
  rw [hm]
  exact ⟨rfl, List.mem_append_right _ (List.mem_singleton.mpr rfl)⟩

/-- An environment whose configuration file is missing. -/
def envAbsent : Env :=
  ⟨FileState.absent, CsvOutcome.otherFail "connection reset",
   fun _ n => List.range n, ⟨FsOutcome.ok, FsOutcome.ok, FsOutcome.ok⟩⟩

/-- Concrete instance: the missing-configuration failure is caught by `main`,
printed and logged. -/
theorem main_catches_all_w :
    (mainFn envAbsent).printed = ["Error: " ++ errMsg (PyError.fileNotFound "params.yaml")] ∧
      LogEntry.mk LogLevel.error
          ("Failed to complete the data ingestion process: " ++
            errMsg (PyError.fileNotFound "params.yaml")) ∈ (mainFn envAbsent).logs :=
  main_catches_all envAbsent (PyError.fileNotFound "params.yaml") rfl
